import Mathlib

/-!
Shallow embedding of the trakt.tv API client (src/trakt.js) in Lean 4.

JavaScript scalar values are modelled by `Trakt.JsVal`; request parameter
objects by ordered association lists; fallible code by `Except`.  Each
definition translates one function (or one stage of a function) of the
source file; the correspondence is noted in the doc comments.
-/

namespace Trakt

/-- Model of a JavaScript scalar value, as it appears in caller-supplied
parameter objects, descriptor option flags and authentication state.
`undefined` is JavaScript `undefined`, `nullv` is `null`. -/
inductive JsVal where
  | undefined : JsVal
  | nullv : JsVal
  | bool : Bool → JsVal
  | num : Int → JsVal
  | str : String → JsVal
deriving DecidableEq

/-- JavaScript truthiness of a scalar value: `undefined`, `null`, `false`,
`0` and `""` are falsy, everything else is truthy. -/
def truthy : JsVal → Bool
  | .undefined => false
  | .nullv => false
  | .bool b => b
  | .num n => n != 0
  | .str s => s != ""

/-- JavaScript string conversion, as performed by template literals
(`${v}`) and by `Array.prototype.join`. -/
def jsToString : JsVal → String
  | .undefined => "undefined"
  | .nullv => "null"
  | .bool b => if b then "true" else "false"
  | .num n => toString n
  | .str s => s

/-- A caller-supplied parameter object: an ordered association list of
property names to values (`for ... in` iterates in insertion order). -/
def Params := List (String × JsVal)

/-- JavaScript property read `params[name]`: yields `undefined` when the
key is missing. -/
def getParam (params : Params) (name : String) : JsVal :=
  match List.lookup name params with
  | some v => v
  | none => .undefined

/-- JavaScript `name in obj` key-presence test. -/
def hasKey (params : Params) (name : String) : Bool :=
  (List.lookup name params).isSome

/-- The presence test used throughout `_parse`:
`if (param || param === 0)` — truthy, or strictly equal to the number 0. -/
def present (v : JsVal) : Bool :=
  truthy v || v == .num 0

/-- Splitting a character list on a single separator character, mirroring
JavaScript `String.prototype.split` with a one-character separator
(`"".split(c)` gives `[""]`, separators at the ends give empty pieces). -/
def splitCharAux (sep : Char) : List Char → List String
  | [] => [""]
  | c :: cs =>
    let rest := splitCharAux sep cs
    if c = sep then
      "" :: rest
    else
      match rest with
      | [] => [String.singleton c]
      | r :: rs => (String.singleton c ++ r) :: rs

/-- JavaScript `s.split(sep)` for a one-character separator. -/
def splitChar (sep : Char) (s : String) : List String :=
  splitCharAux sep s.data

/-- JavaScript `arr.join(sep)`. -/
def joinSep (sep : String) : List String → String
  | [] => ""
  | [x] => x
  | x :: xs => x ++ sep ++ joinSep sep xs

/-- First element of a JavaScript `split` result (`split` never returns an
empty array, so index 0 always exists). -/
def jsFirst (xs : List String) : String :=
  match xs with
  | [] => ""
  | x :: _ => x

/-- JavaScript `arr[1]` on a `split` result: `undefined` (here `none`)
when there is no second element. -/
def jsSecond (xs : List String) : Option String :=
  match xs with
  | [] => none
  | [_] => none
  | _ :: x :: _ => some x

/-- JavaScript `path[0] != ':'` test, negated: does the segment start with
a colon?  An empty segment has `path[0] === undefined`, which is not `':'`. -/
def headIsColon (s : String) : Bool :=
  match s.data with
  | [] => false
  | c :: _ => c = ':'

/-- JavaScript `s.substr(1)`. -/
def substrFromOne (s : String) : String :=
  match s.data with
  | [] => ""
  | _ :: cs => ⟨cs⟩

/-- Hexadecimal digit (uppercase, as produced by `encodeURIComponent`). -/
def hexDigit (n : Nat) : Char :=
  (['0', '1', '2', '3', '4', '5', '6', '7', '8', '9',
    'A', 'B', 'C', 'D', 'E', 'F']).getD n '0'

/-- UTF-8 byte sequence of a Unicode code point, as natural numbers. -/
def utf8Bytes (n : Nat) : List Nat :=
  if n < 128 then [n]
  else if n < 2048 then [192 + n / 64, 128 + n % 64]
  else if n < 65536 then [224 + n / 4096, 128 + (n / 64) % 64, 128 + n % 64]
  else [240 + n / 262144, 128 + (n / 4096) % 64, 128 + (n / 64) % 64, 128 + n % 64]

/-- Percent-escape of one byte: `%XY`. -/
def percentByte (b : Nat) : String :=
  String.mk ['%', hexDigit (b / 16), hexDigit (b % 16)]

/-- Characters left unescaped by `encodeURIComponent`:
`A-Z a-z 0-9 - _ . ! ~ * ' ( )` (the apostrophe is code point 39). -/
def uriUnreserved (c : Char) : Bool :=
  c.isAlphanum || ['-', '_', '.', '!', '~', '*', '(', ')'].contains c || c.toNat = 39

/-- Model of JavaScript `encodeURIComponent`: unreserved characters pass
through, every other character is replaced by the percent-escapes of its
UTF-8 bytes. -/
def encodeURIComponent (s : String) : String :=
  String.join (s.data.map fun c =>
    if uriUnreserved c then String.singleton c
    else String.join ((utf8Bytes c.toNat).map percentByte))

/-- Errors thrown by the client.  `errorMsg m` is a JavaScript
`Error(m)`; `missingMandatory name` is
`` Error(`Missing mandatory paramater: ${name}`) `` (sic) with the
placeholder name kept structured; `typeError` is a JavaScript `TypeError`
raised by calling a method that does not exist. -/
inductive JsError where
  | missingMandatory (name : String) : JsError
  | typeError (msg : String) : JsError
  | errorMsg (msg : String) : JsError
deriving DecidableEq

/-- Descriptor option flags (`method.opts`); an absent flag is
`undefined`. -/
structure Opts where
  auth : JsVal := .undefined
  pagination : JsVal := .undefined
  extended : JsVal := .undefined
deriving DecidableEq

/-- An endpoint descriptor from the endpoint table (`methods[url]`):
HTTP verb, URL template, optional-parameter list (possibly absent
altogether), option flags and body template. -/
structure Method where
  method : String
  url : String
  optional : Option (List String) := none
  opts : Opts := {}
  body : Option (List (String × JsVal)) := none
deriving DecidableEq

/-- The `?`-part loop of `_parse` (src/trakt.js lines 153-159): for each
declared query name, look the name up in `params` and, when present
(truthy or `=== 0`), append `name=encodeURIComponent(value)`. -/
def buildQuery (params : Params) : List String → List String
  | [] => []
  | q :: rest =>
    let name := jsFirst (splitChar '=' q)
    let param := getParam params name
    if present param then
      (name ++ "=" ++ encodeURIComponent (jsToString param)) :: buildQuery params rest
    else
      buildQuery params rest

/-- The `/`-part loop of `_parse` (src/trakt.js lines 164-179).  Literal
segments pass through; a `:name` placeholder is substituted when the
parameter is present (truthy or `=== 0`).  When absent, the source checks
`method.optional?.indexOf(name) === -1`: with an `optional` list that
omits the name this throws the missing-mandatory error, but when
`method.optional` is `undefined` the optional-chaining result `undefined`
compares unequal to `-1` and the placeholder is silently dropped. -/
def bindPath (optional : Option (List String)) (params : Params) :
    List String → Except JsError (List String)
  | [] => .ok []
  | seg :: rest =>
    if !headIsColon seg then
      (bindPath optional params rest).map (seg :: ·)
    else if present (getParam params (substrFromOne seg)) then
      (bindPath optional params rest).map
        (jsToString (getParam params (substrFromOne seg)) :: ·)
    else
      match optional with
      | some l =>
        if l.contains (substrFromOne seg) then bindPath optional params rest
        else .error (.missingMandatory (substrFromOne seg))
      | none => bindPath optional params rest

/-- The filters loop of `_parse` (src/trakt.js lines 182-189).  The
source iterates `for (const p in params)` and immediately evaluates
`filters.contains(p)` — but `Array.prototype.contains` does not exist in
JavaScript, so the first iteration throws a `TypeError`.  The loop body
never runs for an empty parameter object, so only non-empty `params`
crash. -/
def applyFilters (params : Params) (queryParts : List String) :
    Except JsError (List String) :=
  match params with
  | [] => .ok queryParts
  | _ :: _ => .error (.typeError "filters.contains is not a function")

/-- The pagination block of `_parse` (src/trakt.js lines 192-195):
when the descriptor's `pagination` flag is truthy, append `page` and
`limit` entries for truthy parameter values (no URI encoding here). -/
def applyPagination (m : Method) (params : Params) (queryParts : List String) :
    List String :=
  if truthy m.opts.pagination then
    let q1 :=
      if truthy (getParam params "page") then
        queryParts ++ ["page=" ++ jsToString (getParam params "page")]
      else queryParts
    if truthy (getParam params "limit") then
      q1 ++ ["limit=" ++ jsToString (getParam params "limit")]
    else q1
  else queryParts

/-- The extended block of `_parse` (src/trakt.js lines 198-200). -/
def applyExtended (m : Method) (params : Params) (queryParts : List String) :
    List String :=
  if truthy m.opts.extended && truthy (getParam params "extended") then
    queryParts ++ ["extended=" ++ jsToString (getParam params "extended")]
  else queryParts

/-- The path segments of a descriptor's URL template: the part before
`?`, split on `/`. -/
def pathSegs (m : Method) : List String :=
  splitChar '/' (jsFirst (splitChar '?' m.url))

/-- The declared query names of a descriptor's URL template: the part
after the first `?`, split on `&`; an absent query part gives `[]`
(`queryPart?.split('&') || []`). -/
def queryDecls (m : Method) : List String :=
  match jsSecond (splitChar '?' m.url) with
  | some qp => splitChar '&' qp
  | none => []

/-- Model of `_parse` (src/trakt.js lines 143-206): build the declared-query
entries, bind the path (which may throw the missing-mandatory error), run
the filters loop (which throws a `TypeError` for any non-empty `params`),
then pagination and extended, and join the result. -/
def _parse (m : Method) (params : Params) : Except JsError String :=
  let queryParts := buildQuery params (queryDecls m)
  match bindPath m.optional params (pathSegs m) with
  | .error e => .error e
  | .ok pathParts =>
    match applyFilters params queryParts with
    | .error e => .error e
    | .ok q2 =>
      let q3 := applyExtended m params (applyPagination m params q2)
      .ok (joinSep "/" pathParts ++
        (if q3.isEmpty then "" else "?" ++ joinSep "&" q3))

/-- Client settings relevant to request building and authentication
(`this._settings`). -/
structure Settings where
  client_id : JsVal := .undefined
  client_secret : JsVal := .undefined
deriving DecidableEq

/-- The shared authentication state record (`this._authentication`):
fields start out `undefined` on the empty object. -/
structure Authentication where
  access_token : JsVal := .undefined
  refresh_token : JsVal := .undefined
  expires : JsVal := .undefined
deriving DecidableEq

/-- The request descriptor assembled by `_call` and handed to the
transport: verb, bound URL, the two fixed headers, the optional bearer
`Authorization` header, and the pruned body (absent for GET). -/
structure Request where
  method : String
  url : String
  apiVersion : String
  apiKey : JsVal
  authorization : Option String := none
  data : Option (List (String × JsVal)) := none
deriving DecidableEq

/-- Body assembly of `_call` (src/trakt.js lines 223, 230-235): start
from a copy of the body template, overwrite each template key that also
occurs in `params` with the caller's value, then delete every key whose
final value is falsy. -/
def buildBody (m : Method) (params : Params) : List (String × JsVal) :=
  ((m.body.getD []).map fun kv =>
    if hasKey params kv.1 then (kv.1, getParam params kv.1) else kv).filter
    fun kv => truthy kv.2

/-- Model of `_call` (src/trakt.js lines 209-243), up to the transport dispatch.
First the auth gate: only when `method.opts['auth'] === true` (strict
equality with the boolean) does it require a truthy access token and a
truthy client secret, throwing `Error('OAuth required')` otherwise —
synchronously, before `_parse` runs and before any request exists.  Then
the URL is bound by `_parse`, the fixed headers are set, the bearer
header is attached when `method.opts['auth']` is truthy (not necessarily
`true`) and an access token is present, the body is assembled, and for
GET the body is dropped.  The returned `Request` is what would be handed
to the transport; an `error` result means the transport is never
invoked. -/
def _call (m : Method) (params : Params) (auth : Authentication)
    (settings : Settings) : Except JsError Request :=
  if m.opts.auth == .bool true &&
      (!truthy auth.access_token || !truthy settings.client_secret) then
    .error (.errorMsg "OAuth required")
  else
    match _parse m params with
    | .error e => .error e
    | .ok url =>
      let data := buildBody m params
      .ok {
        method := m.method
        url := url
        apiVersion := "2"
        apiKey := settings.client_id
        authorization :=
          if truthy m.opts.auth && truthy auth.access_token then
            some ("Bearer " ++ jsToString auth.access_token)
          else none
        data := if m.method == "GET" then none else some data
      }

/-- The token payload returned by the token endpoint on a successful
exchange (`data` in `_exchange`). -/
structure TokenData where
  access_token : JsVal
  refresh_token : JsVal
  created_at : Int
  expires_in : Int
deriving DecidableEq

/-- The success branch of `_exchange` (src/trakt.js lines 98-103): store
the refresh token, the access token, and
`expires = (created_at + expires_in) * 1000`. -/
def _exchangeSuccess (auth : Authentication) (data : TokenData) : Authentication :=
  { auth with
    refresh_token := data.refresh_token
    access_token := data.access_token
    expires := .num ((data.created_at + data.expires_in) * 1000) }

/-- Snapshot shape returned by `export_token` (src/trakt.js lines
384-390). -/
structure ExportedToken where
  access_token : JsVal
  expires : JsVal
  refresh_token : JsVal
deriving DecidableEq

/-- Model of `export_token`: a plain snapshot of the three token
fields, no mutation. -/
def export_token (auth : Authentication) : ExportedToken :=
  { access_token := auth.access_token
    expires := auth.expires
    refresh_token := auth.refresh_token }

/-- The error-response record the catch handlers read
(`error.response`): the HTTP status (`statusCode`, possibly absent) and
the `www-authenticate` response header (possibly absent). -/
structure ErrResponse where
  statusCode : Option Int := none
  wwwAuthenticate : JsVal := .undefined
deriving DecidableEq

/-- A transport failure: may or may not carry a response
(`error.response` is absent for pure network errors). -/
structure TransportError where
  response : Option ErrResponse := none
deriving DecidableEq

/-- What a token-endpoint operation ultimately rejects with: either a
fresh `Error(headers['www-authenticate'])` or the unmodified transport
error. -/
inductive ExchangeFailure where
  | authError (msg : String) : ExchangeFailure
  | transport (e : TransportError) : ExchangeFailure
deriving DecidableEq

/-- The catch handler of `_exchange` (src/trakt.js lines 104-108):
`error.response?.statusCode == 401` re-surfaces the error as
`Error(error.response.headers['www-authenticate'])`; every other failure
is rethrown unchanged (including failures with no response at all). -/
def exchangeCatch (e : TransportError) : ExchangeFailure :=
  match e.response with
  | some r =>
    if r.statusCode = some 401 then .authError (jsToString r.wwwAuthenticate)
    else .transport e
  | none => .transport e

/-- The catch handler of `_device_code` (src/trakt.js lines 135-139),
textually identical to the one in `_exchange`. -/
def deviceCodeCatch (e : TransportError) : ExchangeFailure :=
  match e.response with
  | some r =>
    if r.statusCode = some 401 then .authError (jsToString r.wwwAuthenticate)
    else .transport e
  | none => .transport e

/-- A poll descriptor as `poll_access` reads it: the device code and the
`expires_in` / `interval` durations in seconds. -/
structure PollDescriptor where
  device_code : JsVal
  expires_in : Int
  interval : Int
deriving DecidableEq

/-- Outcome of one device-token request issued by a poll tick. -/
inductive DeviceResult where
  | success (body : TokenData) : DeviceResult
  | failure (e : TransportError) : DeviceResult
deriving DecidableEq

/-- What one tick of the polling loop does to the pending promise and the
timer.  `rejectExpired` is `clearInterval` + `reject(Error('Expired'))`;
`resolved` is `clearInterval` + `resolve(body)`; `rejectError` is
`clearInterval` + `reject(error)`; `keepPolling` is the 400 branch that
does nothing, leaving the timer running and the promise pending. -/
inductive TickOutcome where
  | rejectExpired : TickOutcome
  | resolved (body : TokenData) : TickOutcome
  | rejectError (e : TransportError) : TickOutcome
  | keepPolling : TickOutcome
deriving DecidableEq

/-- The 400 test in the poll catch handler
(`error.response?.statusCode === 400`, src/trakt.js line 350). -/
def is400 (e : TransportError) : Bool :=
  match e.response with
  | some r => r.statusCode == some 400
  | none => false

/-- One tick of the `call` closure inside `poll_access`
(src/trakt.js lines 331-355): if wall-clock time has reached
`begin + expires_in * 1000`, cancel and reject with `Error('Expired')`;
otherwise issue the device-token request — success stores the token and
resolves, a 400 failure does nothing, any other failure cancels and
rejects with the transport error. -/
def pollTick (poll : PollDescriptor) (beginT now : Int) (res : DeviceResult) :
    TickOutcome :=
  if beginT + poll.expires_in * 1000 ≤ now then .rejectExpired
  else
    match res with
    | .success body => .resolved body
    | .failure e => if is400 e then .keepPolling else .rejectError e

/-- The wall-clock time of the n-th firing of
`setInterval(call, poll.interval * 1000)` started at `beginT`: the first
firing happens one full interval after the timer is installed. -/
def tickTime (poll : PollDescriptor) (beginT : Int) (n : Nat) : Int :=
  beginT + (n + 1) * poll.interval * 1000

/-- The outcome of the n-th poll tick, with the device-token result of
tick n supplied by `transport n`. -/
def pollOutcome (poll : PollDescriptor) (beginT : Int)
    (transport : Nat → DeviceResult) (n : Nat) : TickOutcome :=
  pollTick poll beginT (tickTime poll beginT n) (transport n)

/-- The argument actually passed to `poll_access`, classified the way the
validation reads it: its truthiness and its `constructor`.  A plain
object carries its (possibly `undefined`) `device_code`, `expires_in` and
`interval` properties; the other constructors cover arrays, strings,
numbers and booleans, whose boxed `constructor` is not `Object`. -/
inductive PollArg where
  | undefined : PollArg
  | nullv : PollArg
  | boolArg (b : Bool) : PollArg
  | numArg (n : Int) : PollArg
  | strArg (s : String) : PollArg
  | arrArg : PollArg
  | objArg (device_code expires_in interval : JsVal) : PollArg
deriving DecidableEq

/-- JavaScript falsiness of the poll argument (`!poll`). -/
def pollArgFalsy : PollArg → Bool
  | .undefined => true
  | .nullv => true
  | .boolArg b => !b
  | .numArg n => n == 0
  | .strArg s => s == ""
  | .arrArg => false
  | .objArg _ _ _ => false

/-- The `poll.constructor !== Object` test: only a plain object has
constructor `Object`. -/
def pollArgIsObject : PollArg → Bool
  | .objArg _ _ _ => true
  | _ => false

/-- The synchronous validation at the top of `poll_access`
(src/trakt.js lines 324-326): `if (!poll || poll.constructor !== Object)
throw Error('Invalid Poll object')`.  It runs before `Date.now()` is
read and before any timer is installed or request issued; no individual
field of the object is inspected. -/
def pollAccessCheck (poll : PollArg) : Except JsError Unit :=
  if pollArgFalsy poll || !pollArgIsObject poll then
    .error (.errorMsg "Invalid Poll object")
  else .ok ()

/-- Model of `revoke_token` (src/trakt.js lines 393-398), parameterised by the
result of the awaited `_revoke()` transport call.  With a truthy access
token: when the revoke request fails, `await` rethrows and the
`this._authentication = {}` line is never reached, so the error
propagates with the state unchanged; when it succeeds, the state is
reset to the empty object.  Without an access token nothing happens. -/
def revoke_token (auth : Authentication) (res : Except TransportError Unit) :
    Authentication × Option TransportError :=
  if truthy auth.access_token then
    match res with
    | .ok _ => ({}, none)
    | .error e => (auth, some e)
  else (auth, none)

/-- A path segment is a mandatory placeholder left unfilled: it starts
with a colon, the corresponding parameter is not present (not truthy and
not the number 0), and its name is missing from the descriptor's
`optional` list. -/
def mandatoryMissing (opt : List String) (params : Params) (seg : String) : Bool :=
  headIsColon seg && !present (getParam params (substrFromOne seg)) &&
    !(opt.contains (substrFromOne seg))

/-- The name of the first mandatory placeholder of the segment list that
the parameters leave unfilled, if any. -/
def firstMandatoryMissing (opt : List String) (params : Params)
    (segs : List String) : Option String :=
  (segs.find? (mandatoryMissing opt params)).map substrFromOne

/-- Concrete descriptor used to instantiate the mandatory-placeholder
theorem: a show-seasons endpoint whose `optional` list exists but does
not mention `id`. -/
def mSeasons : Method :=
  { method := "GET", url := "/shows/:id/seasons", optional := some [] }

/-- Concrete auth-flagged descriptor (`opts.auth === true`). -/
def mWatchlist : Method :=
  { method := "GET", url := "/sync/watchlist", opts := { auth := .bool true } }

/-- Concrete descriptor whose `auth` flag is the string "optional":
truthy, but not strictly the boolean `true`. -/
def mPopular : Method :=
  { method := "GET", url := "/movies/popular", opts := { auth := .str "optional" } }

/-- Authentication state holding the access token "T". -/
def authTokenT : Authentication := { access_token := .str "T" }

/-- Settings holding only a client id. -/
def settingsCid : Settings := { client_id := .str "cid" }

/-- The request `_call` builds for `mPopular` with empty parameters,
the token "T" and the settings above. -/
def reqPopular : Request :=
  { method := "GET", url := "/movies/popular", apiVersion := "2",
    apiKey := .str "cid", authorization := some "Bearer T", data := none }

/-- A transport failure carrying HTTP status 400, as produced during
device polling while the user has not yet authorized. -/
def err400 : TransportError := { response := some { statusCode := some 400 } }

/-- A transport collaborator whose every device-token request fails with
status 400. -/
def transport400 : Nat → DeviceResult := fun _ => .failure err400

/-- A transport failure carrying HTTP status 401 and a
`WWW-Authenticate` header. -/
def err401 : TransportError :=
  { response :=
      some { statusCode := some 401, wwwAuthenticate := .str "Bearer realm=trakt" } }

/-- A transport failure carrying HTTP status 500. -/
def err500 : TransportError := { response := some { statusCode := some 500 } }

/-! Helper lemmas shared by the claim theorems. -/

/-- Mapping over a failed `Except` keeps the error. -/
theorem exceptMap_error {ε α β : Type} (f : α → β) (e : ε) :
    Except.map f (Except.error e : Except ε α) = .error e := rfl

/-- Every error produced by the path-binding loop is a missing-mandatory
error: the loop throws nothing else. -/
theorem bindPath_error_missing (o : Option (List String)) (p : Params) :
    ∀ (segs : List String) (e : JsError), bindPath o p segs = .error e →
      ∃ n, e = .missingMandatory n := by
  intro segs
  induction segs with
  | nil =>
    intro e h
    simp [bindPath] at h
  | cons seg rest ih =>
    intro e h
    by_cases h1 : headIsColon seg
    · by_cases h2 : present (getParam p (substrFromOne seg))
      · simp only [bindPath, h1, h2] at h
        simp at h
        cases hb : bindPath o p rest with
        | error e2 =>
          rw [hb] at h
          simp [Except.map] at h
          subst h
          exact ih e2 hb
        | ok v =>
          rw [hb] at h
          simp [Except.map] at h
      · rw [Bool.not_eq_true] at h2
        simp only [bindPath, h1, h2] at h
        simp at h
        cases o with
        | some l =>
          by_cases h3 : substrFromOne seg ∈ l
          · simp [h3] at h
            exact ih e h
          · simp [h3] at h
            exact ⟨substrFromOne seg, h.symm⟩
        | none => exact ih e h
    · rw [Bool.not_eq_true] at h1
      simp only [bindPath, h1] at h
      simp at h
      cases hb : bindPath o p rest with
      | error e2 =>
        rw [hb] at h
        simp [Except.map] at h
        subst h
        exact ih e2 hb
      | ok v =>
        rw [hb] at h
        simp [Except.map] at h

/-- When the segment list contains a mandatory unfilled placeholder, the
path-binding loop fails with the missing-mandatory error naming the
first such placeholder. -/
theorem bindPath_find_error (opt : List String) (p : Params) :
    ∀ (segs : List String) (seg : String),
      segs.find? (mandatoryMissing opt p) = some seg →
      bindPath (some opt) p segs = .error (.missingMandatory (substrFromOne seg)) := by
  intro segs
  induction segs with
  | nil =>
    intro seg h
    simp at h
  | cons a rest ih =>
    intro seg h
    cases ha : mandatoryMissing opt p a with
    | true =>
      simp [List.find?_cons, ha] at h
      subst h
      have ha2 := ha
      simp only [mandatoryMissing, Bool.and_eq_true, Bool.not_eq_true'] at ha2
      obtain ⟨⟨hc, hp⟩, hl⟩ := ha2
      have hlm : substrFromOne a ∉ opt := by simpa using hl
      simp [bindPath, hc, hp, hlm]
    | false =>
      simp only [List.find?_cons, ha] at h
      have hrest := ih seg h
      by_cases h1 : headIsColon a
      · by_cases h2 : present (getParam p (substrFromOne a))
        · simp [bindPath, h1, h2, hrest, Except.map]
        · rw [Bool.not_eq_true] at h2
          have h3 : substrFromOne a ∈ opt := by
            by_contra h4
            simp [mandatoryMissing, h1, h2, h4] at ha
          simp [bindPath, h1, h2, h3, hrest]
      · rw [Bool.not_eq_true] at h1
        simp [bindPath, h1, hrest, Except.map]

/-- Every error thrown by the request binder is either a
missing-mandatory error (from the path loop) or a `TypeError` (from the
broken filters loop); in particular it is never a plain `Error(msg)`. -/
theorem parse_error_cases (m : Method) (p : Params) (e : JsError)
    (h : _parse m p = .error e) :
    (∃ n, e = .missingMandatory n) ∨ (∃ s, e = .typeError s) := by
  simp only [_parse] at h
  cases hb : bindPath m.optional p (pathSegs m) with
  | error e2 =>
    rw [hb] at h
    simp at h
    subst h
    exact Or.inl (bindPath_error_missing m.optional p (pathSegs m) e2 hb)
  | ok parts =>
    rw [hb] at h
    cases p with
    | nil => simp [applyFilters] at h
    | cons q qs =>
      simp [applyFilters] at h
      exact Or.inr ⟨_, h.symm⟩

/-! Claim theorems. -/

/-- C1.  The claim says that for a parameter object containing a
filter-allow-list parameter (here `query` = "tron"), `_parse` appends
`name=encoded(value)` to the query accumulator and returns normally.  In
the source the filters loop calls `filters.contains(p)`, but
`Array.prototype.contains` does not exist in JavaScript, so `_parse`
throws a `TypeError` for every non-empty parameter object instead of
returning: the claim describes the intended (spec) behaviour and the
code is broken.  This theorem evaluates the model at the failing input,
showing the `TypeError` and that the crash is exactly the filters
stage. -/
theorem C1_filters_typeerror :
    _parse { method := "GET", url := "/search" } [("query", JsVal.str "tron")]
        = .error (.typeError "filters.contains is not a function")
  ∧ applyFilters [("query", JsVal.str "tron")] []
        = .error (.typeError "filters.contains is not a function")
  ∧ _parse { method := "GET", url := "/search" } [] = .ok "/search" :=
  ⟨rfl, rfl, rfl⟩

/-- C2, counterexample.  The claim asserts binding fails for a missing
mandatory placeholder even when the descriptor has no `optionalParams`
list at all.  For the descriptor `{url: "/shows/:id"}` with no
`optional` list and an empty parameter object, the source evaluates
`method.optional?.indexOf("id") === -1` to `undefined === -1`, which is
false, so no error is thrown and `_parse` returns the path "/shows" —
contradicting the claimed failure. -/
theorem C2_counterexample :
    _parse { method := "GET", url := "/shows/:id" } [] = .ok "/shows" := rfl

/-- C2, amended.  For every descriptor that does have an
`optionalParams` list, if the URL template's path contains a placeholder
whose name the parameters leave unfilled (absent, empty string, `false`
— anything neither truthy nor the number 0) and the `optional` list
omits, then `_parse` fails with the missing-mandatory error naming the
first such placeholder, rather than returning a path. -/
theorem C2_mandatory_error (m : Method) (params : Params) (opt : List String)
    (name : String) (hopt : m.optional = some opt)
    (hfind : firstMandatoryMissing opt params (pathSegs m) = some name) :
    _parse m params = .error (.missingMandatory name) := by
  unfold firstMandatoryMissing at hfind
  cases hf : (pathSegs m).find? (mandatoryMissing opt params) with
  | none => rw [hf] at hfind; simp at hfind
  | some seg =>
    rw [hf] at hfind
    simp at hfind
    have hb := bindPath_find_error opt params (pathSegs m) seg hf
    simp only [_parse, hopt, hb]
    rw [hfind]

/-- C2, witness: the seasons descriptor has `optional = some []` and a
mandatory `:id` placeholder; with empty parameters `_parse` throws the
missing-mandatory error naming `id`. -/
theorem C2_mandatory_error_witness :
    _parse mSeasons [] = .error (.missingMandatory "id") :=
  C2_mandatory_error mSeasons [] [] "id" rfl rfl

/-- C3.  Polling with `interval = 1`, `expires_in = 2` against a
transport whose every device-token request fails with HTTP status 400:
the timer fires at `begin + (n+1)*1000` ms; the only tick strictly
before `begin + expires_in*1000` is tick 0, and it is the
do-nothing 400 branch (timer keeps running, promise stays pending — no
rejection, no resolution); every tick at or after `begin + 2000` —
first reached at tick 1, time exactly `begin + 2000` — cancels the
timer and rejects with `Error('Expired')`.  So the poll never settles
before the expiry window is reached and eventually rejects as expired. -/
theorem C3_poll_expiry (dc : JsVal) (beginT : Int)
    (transport : Nat → DeviceResult)
    (h400 : ∀ n, ∃ e, transport n = .failure e ∧ is400 e = true) :
    (∀ n, pollOutcome ⟨dc, 2, 1⟩ beginT transport n
        = if n = 0 then .keepPolling else .rejectExpired)
  ∧ tickTime ⟨dc, 2, 1⟩ beginT 0 < beginT + 2 * 1000
  ∧ (∀ n, n ≠ 0 → beginT + 2 * 1000 ≤ tickTime ⟨dc, 2, 1⟩ beginT n) := by
  refine ⟨?_, ?_, ?_⟩
  · intro n
    obtain ⟨e, he, h4⟩ := h400 n
    cases n with
    | zero =>
      simp only [pollOutcome, pollTick, tickTime, he]
      rw [if_neg (by omega)]
      simp [h4]
    | succ k =>
      simp only [pollOutcome, pollTick, tickTime, he]
      rw [if_pos (by push_cast; nlinarith [Int.ofNat_nonneg k])]
      simp
  · simp only [tickTime]
    omega
  · intro n hn
    simp only [tickTime]
    have h1 : (1 : Int) ≤ (n : Int) := by
      omega
    nlinarith

/-- C3, witness: with the always-400 transport, tick 0 (at 1000 ms) is
the keep-waiting branch and tick 1 (at 2000 ms, exactly the expiry
boundary) rejects as expired. -/
theorem C3_poll_expiry_witness :
    pollOutcome ⟨JsVal.str "dc", 2, 1⟩ 0 transport400 0 = .keepPolling
  ∧ pollOutcome ⟨JsVal.str "dc", 2, 1⟩ 0 transport400 1 = .rejectExpired := by
  have h := C3_poll_expiry (JsVal.str "dc") 0 transport400
    (fun n => ⟨err400, rfl, rfl⟩)
  exact ⟨by simpa using h.1 0, by simpa using h.1 1⟩

/-- C4.  The catch handlers of `_exchange` (used by `exchange_code` and
`refresh_token`) and of `_device_code`: a transport failure whose
response carries HTTP status 401 is re-surfaced as a fresh error built
from the response's `www-authenticate` header; a failure with any other
status is rethrown unchanged. -/
theorem C4_auth_error_translation (e : TransportError) (r : ErrResponse)
    (hr : e.response = some r) :
    (r.statusCode = some 401 →
        exchangeCatch e = .authError (jsToString r.wwwAuthenticate)
      ∧ deviceCodeCatch e = .authError (jsToString r.wwwAuthenticate))
  ∧ (r.statusCode ≠ some 401 →
        exchangeCatch e = .transport e ∧ deviceCodeCatch e = .transport e) := by
  constructor
  · intro h401
    constructor
    · simp [exchangeCatch, hr, h401]
    · simp [deviceCodeCatch, hr, h401]
  · intro hother
    constructor
    · simp [exchangeCatch, hr, hother]
    · simp [deviceCodeCatch, hr, hother]

/-- C4, witness: a 401 failure with header "Bearer realm=trakt" is
translated into that auth error by both handlers; a 500 failure is
rethrown unchanged by both. -/
theorem C4_auth_error_translation_witness :
    (exchangeCatch err401 = .authError "Bearer realm=trakt"
      ∧ deviceCodeCatch err401 = .authError "Bearer realm=trakt")
  ∧ (exchangeCatch err500 = .transport err500
      ∧ deviceCodeCatch err500 = .transport err500) :=
  ⟨(C4_auth_error_translation err401
      { statusCode := some 401, wwwAuthenticate := .str "Bearer realm=trakt" }
      rfl).1 rfl,
   (C4_auth_error_translation err500 { statusCode := some 500 } rfl).2
      (by decide)⟩

/-- C5.  For a descriptor whose `auth` option is strictly the boolean
`true`, calling `_call` with a non-truthy access token or a non-truthy
client secret throws `Error('OAuth required')` — for every parameter
object, including ones the binder would reject or crash on, showing the
gate runs before `_parse` builds anything; an `error` result of the
model means no request value exists to hand to the transport. -/
theorem C5_oauth_required (m : Method) (params : Params)
    (auth : Authentication) (settings : Settings)
    (hauth : m.opts.auth = .bool true)
    (hmiss : truthy auth.access_token = false ∨
      truthy settings.client_secret = false) :
    _call m params auth settings = .error (.errorMsg "OAuth required") := by
  have hcond : (m.opts.auth == JsVal.bool true &&
      (!truthy auth.access_token || !truthy settings.client_secret)) = true := by
    rcases hmiss with h | h <;> simp [hauth, h]
  simp [_call, hcond]

/-- C5, witness: the auth-flagged watchlist descriptor with empty
authentication state and empty settings throws the OAuth-required
error. -/
theorem C5_oauth_required_witness :
    _call mWatchlist [] {} {} = .error (.errorMsg "OAuth required") :=
  C5_oauth_required mWatchlist [] {} {} rfl (Or.inl rfl)

/-- C6.  The success branch of `_exchange` stores
`expires = (created_at + expires_in) * 1000` together with the returned
access and refresh tokens; for the response
`{access_token: "A", refresh_token: "R", created_at: 1000, expires_in: 100}`
the stored `expires` is 1100000 and `export_token` then returns exactly
`{access_token: "A", expires: 1100000, refresh_token: "R"}`. -/
theorem C6_exchange_stores_expires (auth : Authentication) (d : TokenData) :
    (_exchangeSuccess auth d).expires
        = .num ((d.created_at + d.expires_in) * 1000)
  ∧ (_exchangeSuccess auth d).access_token = d.access_token
  ∧ (_exchangeSuccess auth d).refresh_token = d.refresh_token
  ∧ (_exchangeSuccess auth ⟨.str "A", .str "R", 1000, 100⟩).expires
        = .num 1100000
  ∧ export_token (_exchangeSuccess auth ⟨.str "A", .str "R", 1000, 100⟩)
        = { access_token := .str "A", expires := .num 1100000,
            refresh_token := .str "R" } :=
  ⟨rfl, rfl, rfl, rfl, rfl⟩

/-- C7.  The claim says a parameter value of 0 is treated as present
(substituted into a path placeholder and emitted for a declared query
parameter) while `undefined`/`null`/empty-string/`false` are absent.
The presence predicate `param || param === 0` and the path and query
loops do behave exactly so — the first five conjuncts and the
`bindPath`/`buildQuery` evaluations below — but `_parse` as a whole
never returns the built path "/shows/0": the filters loop then calls
the non-existent `Array.prototype.contains` and throws a `TypeError`
for the very same non-empty parameter object, so the claim's observable
conclusion fails on the code while matching the spec's clear intent. -/
theorem C7_zero_present_crash :
    present (JsVal.num 0) = true
  ∧ present JsVal.undefined = false
  ∧ present JsVal.nullv = false
  ∧ present (JsVal.str "") = false
  ∧ present (JsVal.bool false) = false
  ∧ bindPath none [("id", JsVal.num 0)]
        (pathSegs { method := "GET", url := "/shows/:id" })
        = .ok ["", "shows", "0"]
  ∧ buildQuery [("id", JsVal.num 0)]
        (queryDecls { method := "GET", url := "/a?id=" }) = ["id=0"]
  ∧ buildQuery [("id", JsVal.str "")]
        (queryDecls { method := "GET", url := "/a?id=" }) = []
  ∧ _parse { method := "GET", url := "/shows/:id" } [("id", JsVal.num 0)]
        = .error (.typeError "filters.contains is not a function") :=
  ⟨rfl, rfl, rfl, rfl, rfl, rfl, rfl, rfl, rfl⟩

/-- C8, counterexample.  The claim says every argument that is not a
well-formed poll descriptor (device code, `expires_in`, `interval`)
fails immediately with `Error('Invalid Poll object')`.  But the source
only checks `!poll || poll.constructor !== Object`: a plain object with
none of those properties passes the validation, contradicting the
claim. -/
theorem C8_counterexample :
    pollAccessCheck (.objArg .undefined .undefined .undefined) = .ok () := rfl

/-- C8, amended.  The synchronous validation of `poll_access` throws
`Error('Invalid Poll object')` exactly when the argument is falsy or
its constructor is not `Object`: every plain object passes — even with
`device_code`, `expires_in` and `interval` all missing — while
`undefined`, `null`, booleans, numbers, strings and arrays are all
rejected. -/
theorem C8_object_check :
    (∀ dc ei iv : JsVal, pollAccessCheck (.objArg dc ei iv) = .ok ())
  ∧ pollAccessCheck .undefined = .error (.errorMsg "Invalid Poll object")
  ∧ pollAccessCheck .nullv = .error (.errorMsg "Invalid Poll object")
  ∧ (∀ b, pollAccessCheck (.boolArg b)
        = .error (.errorMsg "Invalid Poll object"))
  ∧ (∀ n, pollAccessCheck (.numArg n)
        = .error (.errorMsg "Invalid Poll object"))
  ∧ (∀ s, pollAccessCheck (.strArg s)
        = .error (.errorMsg "Invalid Poll object"))
  ∧ pollAccessCheck .arrArg = .error (.errorMsg "Invalid Poll object") := by
  refine ⟨fun dc ei iv => rfl, rfl, rfl, ?_, ?_, ?_, rfl⟩
  · intro b
    simp [pollAccessCheck, pollArgFalsy, pollArgIsObject]
  · intro n
    simp [pollAccessCheck, pollArgFalsy, pollArgIsObject]
  · intro s
    simp [pollAccessCheck, pollArgFalsy, pollArgIsObject]

/-- C9.  For a descriptor whose `auth` flag is truthy but not strictly
the boolean `true` (such as the string "optional"), `_call` skips the
token/secret precondition entirely — it can never throw
`Error('OAuth required')`, whatever the authentication state — and any
request it builds carries the bearer `Authorization` header exactly
when an access token is present. -/
theorem C9_optional_auth (m : Method) (params : Params)
    (auth : Authentication) (settings : Settings)
    (htr : truthy m.opts.auth = true) (hne : m.opts.auth ≠ .bool true) :
    _call m params auth settings ≠ .error (.errorMsg "OAuth required")
  ∧ ∀ req, _call m params auth settings = .ok req →
      req.authorization =
        if truthy auth.access_token then
          some ("Bearer " ++ jsToString auth.access_token)
        else none := by
  have hbeq : (m.opts.auth == JsVal.bool true) = false := by
    simp [hne]
  constructor
  · intro h
    simp only [_call, hbeq, Bool.false_and, Bool.false_eq_true, if_false] at h
    cases hp : _parse m params with
    | error e =>
      rw [hp] at h
      have he : e = .errorMsg "OAuth required" := by
        injection h
      rcases parse_error_cases m params e hp with ⟨n, hn⟩ | ⟨s, hs⟩
      · rw [hn] at he; exact JsError.noConfusion he
      · rw [hs] at he; exact JsError.noConfusion he
    | ok url =>
      rw [hp] at h
      exact Except.noConfusion h
  · intro req hreq
    simp only [_call, hbeq, Bool.false_and, Bool.false_eq_true, if_false] at hreq
    cases hp : _parse m params with
    | error e =>
      rw [hp] at hreq
      exact Except.noConfusion hreq
    | ok url =>
      rw [hp] at hreq
      injection hreq with hreq2
      rw [← hreq2]
      simp [htr]

/-- C9, witness: the popular-movies descriptor with `auth = "optional"`,
empty parameters, a stored token "T" and no client secret: no
OAuth-required error, and the built request carries
`Authorization: Bearer T`. -/
theorem C9_optional_auth_witness :
    _call mPopular [] authTokenT settingsCid
        ≠ .error (.errorMsg "OAuth required")
  ∧ reqPopular.authorization = some ("Bearer " ++ jsToString (JsVal.str "T")) :=
  ⟨(C9_optional_auth mPopular [] authTokenT settingsCid rfl (by decide)).1,
   by
    rw [(C9_optional_auth mPopular [] authTokenT settingsCid rfl
      (by decide)).2 reqPopular rfl]
    rfl⟩

/-- C10.  With a truthy stored access token, `revoke_token` clears the
authentication state only after the revoke request succeeds: a failing
revoke request propagates the transport error with the state left
unchanged, and a successful one resets the state to the empty record. -/
theorem C10_revoke_preserves_state (auth : Authentication)
    (e : TransportError) (htok : truthy auth.access_token = true) :
    revoke_token auth (.error e) = (auth, some e)
  ∧ revoke_token auth (.ok ()) = ({}, none) := by
  constructor <;> simp [revoke_token, htok]

/-- C10, witness: with token "T" stored, a 500-failing revoke request
leaves the state untouched and surfaces the error. -/
theorem C10_revoke_preserves_state_witness :
    revoke_token authTokenT (.error err500) = (authTokenT, some err500) :=
  (C10_revoke_preserves_state authTokenT err500 rfl).1

end Trakt
